import Mathlib

/-!
Shallow embedding of the update-distribution subsystem of the issue-tracker
service, together with proofs of the specification claims C1..C10.

Source files embedded:
- pkg/messaging/memory/memory.go   (in-process broker)
- pkg/messaging/kfkimp/kfkimp.go   (durable Kafka broker)
- pkg/messaging/factory.go         (broker factory)
- pkg/svc/projectsvc/project_service.go (stream coordinator)

Go channels are modelled as heap references (`Nat` identifiers) carrying a
bounded buffer of update messages; maps are modelled as association lists
(map iteration order is an irrelevant refinement for the claims below,
which never depend on fan-out order across distinct channels); external
effects of the Kafka client library (dialing nodes, creating topics,
writing records) are modelled as oracle environments supplied as explicit
arguments.
-/

namespace IssueTracker

/-- Model of the protobuf value `projectPbv1.ProjectUpdateResponse`
(fields `ProjectId`, `IssueCount`, `Message`).  `IssueCount` is an `int32`
in the source; overflow plays no role in any claim, so it is an `Int` here. -/
structure UpdateMsg where
  projectId : String
  issueCount : Int
  message : String
deriving DecidableEq, Repr

/-- A Go channel `chan *projectPbv1.ProjectUpdateResponse`: `id` models the
channel's reference identity, `buf` its buffered contents. -/
structure Chan where
  id : Nat
  buf : List UpdateMsg
deriving DecidableEq, Repr

/-- Buffer capacity used by both backends: `make(chan ..., 10)`. -/
def chanCap : Nat := 10

/-- The non-blocking send used by every fan-out loop in the source
(`select { case ch <- update: ... default: }`): append when the buffer has
room, silently drop the message otherwise. -/
def sendNonBlocking (buf : List UpdateMsg) (u : UpdateMsg) : List UpdateMsg :=
  if buf.length < chanCap then buf ++ [u] else buf

/-! ### Association-list registry primitives

Both brokers key their subscriber registries by project ID
(`map[string]map[chan ...]struct{}` in memory.go, `map[string]map[chan ...]bool`
in kfkimp.go).  The registries are modelled as association lists with unique
keys; `lookupSubs`, `setSubs` and `removeKey` model map read, write and
`delete`. -/

/-- Map lookup `m[pid]` on a string-keyed registry. -/
def lookupSubs {α : Type} (regs : List (String × α)) (pid : String) : Option α :=
  match regs with
  | [] => none
  | (k, v) :: rest => if k = pid then some v else lookupSubs rest pid

/-- Map write `m[pid] = v` (replaces the entry, or appends a fresh one). -/
def setSubs {α : Type} (regs : List (String × α)) (pid : String) (v : α) :
    List (String × α) :=
  match regs with
  | [] => [(pid, v)]
  | (k, w) :: rest => if k = pid then (pid, v) :: rest else (k, w) :: setSubs rest pid v

/-- Map deletion `delete(m, pid)` (the model's association lists carry each
key at most once, so dropping every entry for `pid` is exactly the map's
`delete`). -/
def removeKey {α : Type} (regs : List (String × α)) (pid : String) :
    List (String × α) :=
  match regs with
  | [] => []
  | (k, w) :: rest => if k = pid then removeKey rest pid else (k, w) :: removeKey rest pid

/-! ### In-process broker (memory.go) -/

/-- `InMemoryBroker`: the subscriber registry plus, for lifecycle reasoning,
the identities of channels that have been `close`d by `Close` (closing is an
effect on the channel object, not on the registry). -/
structure MemBroker where
  subscribers : List (String × List Chan)
  closedIds : List Nat
deriving DecidableEq, Repr

/-- `NewInMemoryBroker`: empty registry. -/
def newInMemoryBroker : MemBroker :=
  { subscribers := [], closedIds := [] }

/-- One per-subscriber iteration of `PublishUpdate`'s fan-out loop.
`cancelAt = some i` means the caller's context is observed as done just
before the send to subscriber `i` (the `case <-ctx.Done()` arm); the loop
then stops and `PublishUpdate` returns `ctx.Err()`.  Returns the updated
channel list and whether the loop aborted on cancellation. -/
def fanOut (u : UpdateMsg) : List Chan → Option Nat → List Chan × Bool
  | [], _ => ([], false)
  | c :: rest, cancelAt =>
    if cancelAt = some 0 then (c :: rest, true)
    else
      let c2 : Chan := { c with buf := sendNonBlocking c.buf u }
      let p := fanOut u rest (cancelAt.map fun n => n - 1)
      (c2 :: p.1, p.2)

/-- Result of a `PublishUpdate` call: `nil` or `ctx.Err()`. -/
inductive PubResult
  | ok
  | ctxCanceled
deriving DecidableEq, Repr

/-- `(*InMemoryBroker).PublishUpdate`: under a read lock, non-blocking send
to every subscriber of `pid`; returns `ctx.Err()` if the context is observed
done mid-loop, `nil` otherwise (also when `pid` has no subscribers). -/
def memPublishUpdate (b : MemBroker) (pid : String) (u : UpdateMsg)
    (cancelAt : Option Nat) : MemBroker × PubResult :=
  match lookupSubs b.subscribers pid with
  | none => (b, .ok)
  | some chans =>
    let p := fanOut u chans cancelAt
    ({ b with subscribers := setSubs b.subscribers pid p.1 },
     if p.2 then .ctxCanceled else .ok)

/-- `(*InMemoryBroker).Subscribe`: make a fresh buffered channel (capacity
10, its identity supplied by `chId` — `make(chan ...)` always yields a new
object), create the inner set if needed, and register the channel. -/
def memSubscribe (b : MemBroker) (pid : String) (chId : Nat) : MemBroker × Nat :=
  ({ b with subscribers :=
      setSubs b.subscribers pid (((lookupSubs b.subscribers pid).getD []) ++ [⟨chId, []⟩]) },
   chId)

/-- `(*InMemoryBroker).Unsubscribe`: the channel argument is ignored (`_`);
the implementation removes *all* subscriptions for the project with
`delete(b.subscribers, projectID)`. -/
def memUnsubscribe (b : MemBroker) (pid : String) (_chId : Nat) : MemBroker :=
  { b with subscribers := removeKey b.subscribers pid }

/-- `(*InMemoryBroker).Close`: close every channel across every resourceID
and reset the registry to a fresh empty map. -/
def memClose (b : MemBroker) : MemBroker :=
  { subscribers := [],
    closedIds := b.subscribers.foldl (fun acc e => acc ++ e.2.map Chan.id) b.closedIds }

/-- An operation of the in-process broker's public API (other than `Close`). -/
inductive MemOp
  | subscribe (pid : String) (chId : Nat)
  | publish (pid : String) (u : UpdateMsg) (cancelAt : Option Nat)
  | unsubscribe (pid : String) (chId : Nat)
deriving DecidableEq, Repr

/-- The observable result of one broker operation. -/
inductive MemOut
  | subscribed (chId : Nat)
  | published (r : PubResult)
  | unsubscribed
deriving DecidableEq, Repr

/-- One API call against the in-process broker. -/
def memStep (b : MemBroker) : MemOp → MemBroker × MemOut
  | .subscribe pid ch =>
    let p := memSubscribe b pid ch
    (p.1, .subscribed p.2)
  | .publish pid u c =>
    let p := memPublishUpdate b pid u c
    (p.1, .published p.2)
  | .unsubscribe pid ch => (memUnsubscribe b pid ch, .unsubscribed)

/-- A sequence of API calls against the in-process broker, collecting each
call's observable result. -/
def memRun (b : MemBroker) : List MemOp → MemBroker × List MemOut
  | [] => (b, [])
  | op :: ops =>
    let p := memStep b op
    let q := memRun p.1 ops
    (q.1, p.2 :: q.2)

-- sanity: two subscribers on one project, one publish fills both buffers
example :
    (memRun newInMemoryBroker
      [.subscribe "p1" 0, .subscribe "p1" 1,
       .publish "p1" ⟨"p1", 3, "m"⟩ none]).1.subscribers =
      [("p1", [⟨0, [⟨"p1", 3, "m"⟩]⟩, ⟨1, [⟨"p1", 3, "m"⟩]⟩])] := by decide

/-! ### Durable Kafka broker registry (kfkimp.go)

The `KafkaBroker` struct's in-process bookkeeping: the local subscriber
registry `subscribers`, the set of project IDs with an active
`kafka.Reader` (`readers`), and the identities of channels closed by
`Close`.  The writer and the per-reader consumption goroutines live in the
Kafka client library; their effects enter through `kDistributeUpdate`
(the fan-out performed by `consumeMessages`). -/

structure KafkaReg where
  subscribers : List (String × List Chan)
  readers : List String
  closedIds : List Nat
deriving DecidableEq, Repr

/-- The registries of a freshly constructed `KafkaBroker`. -/
def newKafkaReg : KafkaReg :=
  { subscribers := [], readers := [], closedIds := [] }

/-- `(*KafkaBroker).Subscribe` (registry effect): make a fresh channel of
capacity 10; if the project has no entry yet, create it and — if no reader
exists for it — create a reader and start its consumption loop; finally
register the channel.  The context-cancellation monitor goroutine it spawns
is modelled separately as `kCancelRemove`. -/
def kSubscribe (k : KafkaReg) (pid : String) (chId : Nat) : KafkaReg × Nat :=
  let entry := lookupSubs k.subscribers pid
  let readers :=
    match entry with
    | some _ => k.readers
    | none => if pid ∈ k.readers then k.readers else k.readers ++ [pid]
  ({ k with
      subscribers := setSubs k.subscribers pid ((entry.getD []) ++ [⟨chId, []⟩]),
      readers := readers },
   chId)

/-- `(*KafkaBroker).Unsubscribe`: if the project has an entry, the loop
`for subCh := range subs { delete(subs, subCh) }` removes *every* channel
("we'll just remove them all"), after which `cleanupIfNoSubscribers` always
fires: it closes and deletes the project's reader and deletes the (now
empty) subscriber entry.  A project without an entry is a no-op (`nil`). -/
def kUnsubscribe (k : KafkaReg) (pid : String) (_chId : Nat) : KafkaReg :=
  match lookupSubs k.subscribers pid with
  | none => k
  | some _ =>
    { k with
        subscribers := removeKey k.subscribers pid,
        readers := k.readers.filter (fun r => r ≠ pid) }

/-- The monitor goroutine spawned by `Subscribe`: on the subscriber
context's cancellation it performs `delete(subs, ch)` for exactly the one
channel — without calling `cleanupIfNoSubscribers`. -/
def kCancelRemove (k : KafkaReg) (pid : String) (chId : Nat) : KafkaReg :=
  match lookupSubs k.subscribers pid with
  | none => k
  | some chans =>
    { k with subscribers := setSubs k.subscribers pid (chans.filter (fun c => c.id ≠ chId)) }

/-- `(*KafkaBroker).distributeUpdate` (called from `consumeMessages` once a
record with matching key is deserialized): under a read lock, non-blocking
send to every local subscriber of `pid`; no context involved. -/
def kDistributeUpdate (k : KafkaReg) (pid : String) (u : UpdateMsg) : KafkaReg :=
  match lookupSubs k.subscribers pid with
  | none => k
  | some chans =>
    { k with subscribers :=
        setSubs k.subscribers pid (chans.map fun c => { c with buf := sendNonBlocking c.buf u }) }

/-- `(*KafkaBroker).Close` (registry effect): cancels the shared context,
closes writer and readers, and closes every subscriber channel.  Neither
map is cleared by the source. -/
def kClose (k : KafkaReg) : KafkaReg :=
  { k with closedIds :=
      k.subscribers.foldl (fun acc e => acc ++ e.2.map Chan.id) k.closedIds }

/-- Registry operations of the durable broker, excluding the monitor
goroutine's cancellation removal (which `kCancelRemove` models). -/
inductive KOp
  | subscribe (pid : String) (chId : Nat)
  | unsubscribe (pid : String) (chId : Nat)
  | distribute (pid : String) (u : UpdateMsg)
  | close
deriving DecidableEq, Repr

/-- One registry operation against the durable broker. -/
def kStep (k : KafkaReg) : KOp → KafkaReg
  | .subscribe pid ch => (kSubscribe k pid ch).1
  | .unsubscribe pid ch => kUnsubscribe k pid ch
  | .distribute pid u => kDistributeUpdate k pid u
  | .close => kClose k

/-- A sequence of registry operations against the durable broker. -/
def kRun (k : KafkaReg) : List KOp → KafkaReg
  | [] => k
  | op :: ops => kRun (kStep k op) ops

/-! ### Kafka error classification (kfkimp.go)

`handlePublishError` compares the error text against two exact strings;
`NewKafkaBroker` checks `strings.Contains(err.Error(), "already exists")`.
Errors are modelled structurally, one constructor per class the source
distinguishes. -/

inductive KErr
  | unknownTopicOrPartition1  -- the text "kafka: unknown topic or partition"
  | unknownTopicOrPartition2  -- the text "[3] Unknown Topic Or Partition"
  | alreadyExists             -- any text containing "already exists"
  | otherErr                  -- any other error text
deriving DecidableEq, Repr

/-- The exact-string comparison in `handlePublishError`. -/
def isTopicMissingErr (e : KErr) : Bool :=
  e = .unknownTopicOrPartition1 ∨ e = .unknownTopicOrPartition2

/-- The `strings.Contains(err.Error(), "already exists")` check in
`NewKafkaBroker`. -/
def containsAlreadyExists (e : KErr) : Bool :=
  e = .alreadyExists

/-! ### Kafka broker construction (NewKafkaBroker, factory.go) -/

/-- Oracle for the Kafka client effects during construction: per node
address, whether `kafka.Dial` succeeds, whether `conn.Controller()`
succeeds, whether dialing the controller succeeds, and the outcome of
`CreateTopics` (`none` = success). -/
structure KafkaConnectEnv where
  dial : String → Bool
  controllerOk : String → Bool
  dialController : String → Bool
  createTopics : String → Option KErr

/-- One iteration of `NewKafkaBroker`'s provisioning loop for one node:
true when the loop would `break` with `created = true` (topic created, or
creation failed with a text containing "already exists"). -/
def tryProvisionNode (env : KafkaConnectEnv) (node : String) : Bool :=
  if ¬ env.dial node then false
  else if ¬ env.controllerOk node then false
  else if ¬ env.dialController node then false
  else
    match env.createTopics node with
    | none => true
    | some e => containsAlreadyExists e

/-- `NewKafkaBroker`'s provisioning loop over the configured node list:
tries each node in turn until one yields `created = true`. -/
def provisionTopic (env : KafkaConnectEnv) : List String → Bool
  | [] => false
  | node :: rest => if tryProvisionNode env node then true else provisionTopic env rest

/-- The value `NewKafkaBroker` returns: the provisioning outcome (only
logged by the source — a `false` merely produces the warning
"Could not create topic - will try again when publishing"), the
configuration it stores, and its freshly initialized registries. -/
structure KafkaInit where
  topicCreated : Bool
  brokers : List String
  topicPref : String
  reg : KafkaReg
deriving DecidableEq, Repr

/-- `kfkimp.NewKafkaBroker`: runs the provisioning loop, builds the writer,
and returns the broker.  Every path of the source ends in
`return &KafkaBroker{...}, nil`; there is no error return. -/
def newKafkaBroker (env : KafkaConnectEnv) (brokers : List String)
    (topicPref : String) : Except String KafkaInit :=
  .ok { topicCreated := provisionTopic env brokers
        brokers := brokers
        topicPref := topicPref
        reg := newKafkaReg }

/-- The broker the factory selects: in-process or durable. -/
inductive BrokerChoice
  | inMemory (b : MemBroker)
  | kafka (k : KafkaInit)
deriving DecidableEq

/-- Go `strings.ToLower` (ASCII suffices for the values the factory
compares against). -/
def toLowerStr (s : String) : String :=
  String.mk (s.data.map Char.toLower)

/-- Character-level worker for `splitComma`. -/
def splitCommaList (cs : List Char) : List (List Char) :=
  cs.foldr (fun c acc =>
    if c = ',' then [] :: acc
    else (c :: acc.headD []) :: acc.tail) [[]]

/-- Go `strings.Split(s, ",")`. -/
def splitComma (s : String) : List String :=
  (splitCommaList s.data).map String.mk

/-- `messaging.NewMessageBroker`: selects a backend from the
`COMMUNICATION_METHOD` environment variable (with `KAFKA_BROKERS` and
`KAFKA_TOPIC_PREFIX` read for the Kafka case, defaulted when empty). -/
def newMessageBroker (env : KafkaConnectEnv) (communicationMethod kafkaBrokers
    kafkaTopicPref : String) : Except String BrokerChoice :=
  if toLowerStr communicationMethod = "kafka" then
    let nodes := if kafkaBrokers = "" then "localhost:9092" else kafkaBrokers
    let pref := if kafkaTopicPref = "" then "issue-tracker" else kafkaTopicPref
    (newKafkaBroker env (splitComma nodes) pref).map .kafka
  else
    .ok (.inMemory newInMemoryBroker)

/-- A construction-time world in which no configured node is reachable:
every `kafka.Dial` fails. -/
def envUnreachable : KafkaConnectEnv :=
  { dial := fun _ => false
    controllerOk := fun _ => false
    dialController := fun _ => false
    createTopics := fun _ => some .otherErr }

-- sanity: construction succeeds even with every node unreachable
example : (newMessageBroker envUnreachable "kafka" "" "").isOk = true := by decide

/-! ### Kafka publish path (PublishUpdate / handlePublishError / createTopicAndRetry)

`proto.Marshal` of an in-memory message does not fail and the merged
context is live in the scenarios of claim C4, so the oracle covers the
remaining effects: the outcome of each `WriteMessages` attempt (indexed
0, 1, ...) and the connection/provisioning steps of `createTopicAndRetry`
against `k.brokers[0]`. -/

structure KafkaPublishEnv where
  writeMessage : Nat → Option KErr
  dial0 : Bool
  controllerOk0 : Bool
  dialController0 : Bool
  createTopics0 : Option KErr

/-- `(*KafkaBroker).createTopicAndRetry`: dial the first configured node,
resolve and dial the controller, call `CreateTopics` — any `createErr`
(the source does not special-case "already exists" here) aborts with
`false` and no retry — then retry `WriteMessages` once (attempt 1).
Returns whether the publish was rescued, and how many extra write attempts
were made. -/
def createTopicAndRetry (env : KafkaPublishEnv) : Bool × Nat :=
  if ¬ env.dial0 then (false, 0)
  else if ¬ env.controllerOk0 then (false, 0)
  else if ¬ env.dialController0 then (false, 0)
  else
    match env.createTopics0 with
    | some _ => (false, 0)
    | none =>
      match env.writeMessage 1 with
      | none => (true, 1)
      | some _ => (false, 1)

/-- `(*KafkaBroker).handlePublishError`: on one of the two exact
topic-missing error texts, attempt `createTopicAndRetry`; return `nil` when
it rescued the publish and otherwise the original write error (wrapped).
Any other error text is returned directly. -/
def handlePublishError (env : KafkaPublishEnv) (e : KErr) : Option KErr × Nat :=
  if isTopicMissingErr e then
    let r := createTopicAndRetry env
    (if r.1 then none else some e, r.2)
  else (some e, 0)

/-- `(*KafkaBroker).PublishUpdate`, error/retry behaviour: first
`WriteMessages` attempt (index 0), then `handlePublishError` on failure.
Returns the error surfaced to the caller and the total number of
`WriteMessages` attempts. -/
def kPublishUpdate (env : KafkaPublishEnv) : Option KErr × Nat :=
  match env.writeMessage 0 with
  | none => (none, 1)
  | some e =>
    let r := handlePublishError env e
    (r.1, 1 + r.2)

/-- A world in which the first write fails because the topic is missing,
`CreateTopics` reports that the topic already exists, and a retried write
would succeed. -/
def envAlreadyExists : KafkaPublishEnv :=
  { writeMessage := fun n => if n = 0 then some .unknownTopicOrPartition1 else none
    dial0 := true
    controllerOk0 := true
    dialController0 := true
    createTopics0 := some .alreadyExists }

/-! ### A single subscriber's view of one resourceID (claim C7)

Both fan-out loops (`memPublishUpdate` and `kDistributeUpdate`) deliver to
one fixed subscriber channel through `sendNonBlocking`; the subscriber
drains the channel from the front.  The trace system records the published
sequence, the buffer, the observed (drained) sequence, and how many events
the non-blocking send dropped for this subscriber. -/

inductive SubStep
  | publish (u : UpdateMsg)
  | take
deriving DecidableEq, Repr

structure SubTrace where
  buf : List UpdateMsg
  observed : List UpdateMsg
  published : List UpdateMsg
  drops : Nat
deriving DecidableEq, Repr

/-- One step of the single-subscriber system: a publish reaching this
subscriber's channel (a `sendNonBlocking`, counting a drop when the buffer
is full), or the subscriber receiving the channel's next buffered event. -/
def subStep (s : SubTrace) : SubStep → SubTrace
  | .publish u =>
    { s with
        published := s.published ++ [u]
        buf := sendNonBlocking s.buf u
        drops := s.drops + (if s.buf.length < chanCap then 0 else 1) }
  | .take =>
    match s.buf with
    | [] => s
    | u :: rest => { s with buf := rest, observed := s.observed ++ [u] }

/-- The empty trace: a subscriber whose channel was just registered. -/
def subInit : SubTrace :=
  { buf := [], observed := [], published := [], drops := 0 }

/-- Run a sequence of publish/receive steps against one subscriber. -/
def subRun (steps : List SubStep) : SubTrace :=
  steps.foldl subStep subInit

/-! ### Stream Coordinator (project_service.go, in-process mode)

`StreamProjectUpdates` owns one session: it creates the session channel
`inMemoryCh` (capacity 10), spawns the control-message goroutine, and runs
`handleProjectUpdates`.  The service-level registry
`ProjectService.subscribers` is a `map[string][]chan ...`; channels appear
in it by reference, so the registry holds channel identities and the
channel buffers live in a separate heap (`chanBufs`). -/

structure CoordState where
  subscribedProjectID : String
  regs : List (String × List Nat)
  chanBufs : List (Nat × List UpdateMsg)
deriving DecidableEq, Repr

/-- Remove the first occurrence of a channel reference from a slice (the
`for i, c := range channels { if c == ch { ...; break } }` loop of
`removeSubscriber`). -/
def removeFirstRef (chans : List Nat) (chId : Nat) : List Nat :=
  match chans with
  | [] => []
  | c :: rest => if c = chId then rest else c :: removeFirstRef rest chId

/-- `(*ProjectService).removeSubscriber`: remove the first matching channel
from the project's slice (an absent project, or an absent channel, is a
no-op; the — possibly now empty — slice stays in the map).  Also reports
whether a channel was actually removed, so claims about teardown counts can
be stated. -/
def removeSubscriber (s : CoordState) (pid : String) (chId : Nat) : CoordState × Bool :=
  match lookupSubs s.regs pid with
  | none => (s, false)
  | some chans =>
    ({ s with regs := setSubs s.regs pid (removeFirstRef chans chId) },
     decide (chId ∈ chans))

/-- `(*ProjectService).addSubscriber`: append the channel to the project's
slice (creating the entry if absent). -/
def addSubscriber (s : CoordState) (pid : String) (chId : Nat) : CoordState :=
  { s with regs := setSubs s.regs pid (((lookupSubs s.regs pid).getD []) ++ [chId]) }

/-- Buffer write for `notifySubscribers`' non-blocking send into one
channel of the heap. -/
def pushBuf (bufs : List (Nat × List UpdateMsg)) (chId : Nat) (u : UpdateMsg) :
    List (Nat × List UpdateMsg) :=
  match bufs with
  | [] => []
  | (i, b) :: rest =>
    if i = chId then (i, sendNonBlocking b u) :: rest else (i, b) :: pushBuf rest chId u

/-- `(*ProjectService).notifySubscribers` (in-process mode): non-blocking
send of the update to every channel registered for the project. -/
def notifySubscribers (s : CoordState) (pid : String) (u : UpdateMsg) : CoordState :=
  match lookupSubs s.regs pid with
  | none => s
  | some chans =>
    { s with chanBufs := chans.foldl (fun bufs c => pushBuf bufs c u) s.chanBufs }

/-- A client-to-server control message `{resourceID, action}`. -/
structure CtrlMsg where
  projectId : String
  action : String
deriving DecidableEq, Repr

/-- One iteration of the control-message goroutine in
`StreamProjectUpdates` (in-process mode), for the session owning channel
`sessionCh`: on "subscribe", first remove the current subscription when one
exists, then record and register the new project; on "update", only a
message for the currently subscribed project triggers a repository read
(`readProject`, `none` on error) and a notification; other actions are
ignored.  Also returns how many times the old subscription was removed by
this message. -/
def recvStep (sessionCh : Nat) (readProject : String → Option Int)
    (s : CoordState) (m : CtrlMsg) : CoordState × Nat :=
  if m.action = "subscribe" then
    let cleanup :=
      if s.subscribedProjectID ≠ "" then removeSubscriber s s.subscribedProjectID sessionCh
      else (s, false)
    let s2 := { cleanup.1 with subscribedProjectID := m.projectId }
    (addSubscriber s2 m.projectId sessionCh, if cleanup.2 then 1 else 0)
  else if m.action = "update" then
    if m.projectId ≠ s.subscribedProjectID then (s, 0)
    else
      match readProject m.projectId with
      | none => (s, 0)
      | some n =>
        (notifySubscribers s m.projectId
          ⟨m.projectId, n, "Project " ++ m.projectId ++ " updated"⟩, 0)
  else (s, 0)

/-- The control-message goroutine over a message sequence, counting the
removals of the session's previous subscriptions. -/
def recvLoop (sessionCh : Nat) (readProject : String → Option Int)
    (s : CoordState) : List CtrlMsg → CoordState × Nat
  | [] => (s, 0)
  | m :: ms =>
    let p := recvStep sessionCh readProject s m
    let q := recvLoop sessionCh readProject p.1 ms
    (q.1, p.2 + q.2)

/-- The exit paths of `handleProjectUpdates`. -/
inductive ExitPath
  | channelClosed   -- `update, ok := <-updateCh` with `ok = false`
  | recvDone        -- `err := <-errCh` (client EOF or stream receive error)
  | ctxCanceled     -- `<-ctx.Done()`
  | sendError       -- `stream.Send(update)` failed
deriving DecidableEq, Repr

/-- The cleanup `handleProjectUpdates` performs on each exit path
(in-process mode).  Only the send-error path runs any cleanup, and it uses
the `subscribedProjectID` *parameter* — the value the session variable had
when `handleProjectUpdates` was called, which in `StreamProjectUpdates` is
the value at stream start (the goroutine mutates only its own captured
variable afterwards). -/
def exitCleanup (sessionCh : Nat) (capturedProjectID : String) (s : CoordState) :
    ExitPath → CoordState
  | .sendError => (removeSubscriber s capturedProjectID sessionCh).1
  | _ => s

/-- A whole in-process session: `StreamProjectUpdates` creates the session
channel, starts with no subscription, lets the control goroutine process
`msgs`, and the delivery loop then exits via `exit` — with the project ID
captured at the time `handleProjectUpdates` was invoked, i.e. `""`. -/
def streamSession (sessionCh : Nat) (readProject : String → Option Int)
    (msgs : List CtrlMsg) (exit : ExitPath) : CoordState :=
  let s0 : CoordState :=
    { subscribedProjectID := "", regs := [], chanBufs := [(sessionCh, [])] }
  let r := recvLoop sessionCh readProject s0 msgs
  exitCleanup sessionCh "" r.1 exit

/-- How many registered references to channel `chId` the service registry
holds, over all projects (the session's number of active subscriptions). -/
def countRefs (regs : List (String × List Nat)) (chId : Nat) : Nat :=
  regs.foldl (fun acc e => acc + e.2.count chId) 0

-- sanity: subscribe then EOF leaves the session channel registered
example :
    (streamSession 0 (fun _ => none) [⟨"p1", "subscribe"⟩] .recvDone).regs =
      [("p1", [0])] := by decide

/-! ## Registry lemmas -/

theorem lookupSubs_setSubs {α : Type} (regs : List (String × α)) (pid : String)
    (v : α) (q : String) :
    lookupSubs (setSubs regs pid v) q = if q = pid then some v else lookupSubs regs q := by
  induction regs with
  | nil =>
    by_cases h : q = pid
    · simp [setSubs, lookupSubs, h]
    · simp [setSubs, lookupSubs, h, Ne.symm h]
  | cons e rest ih =>
    obtain ⟨k, w⟩ := e
    by_cases hk : k = pid
    · by_cases h : q = pid
      · simp [setSubs, lookupSubs, hk, h]
      · simp [setSubs, lookupSubs, hk, h, Ne.symm h]
    · by_cases hq : k = q
      · have hqp : ¬ q = pid := fun hh => hk (hq.trans hh)
        simp [setSubs, lookupSubs, hq, hqp, fun hh : q = pid => hk (hq.trans hh)]
      · simp [setSubs, lookupSubs, hk, hq, ih]

theorem lookupSubs_removeKey {α : Type} (regs : List (String × α)) (pid q : String) :
    lookupSubs (removeKey regs pid) q = if q = pid then none else lookupSubs regs q := by
  induction regs with
  | nil => simp [removeKey, lookupSubs]
  | cons e rest ih =>
    obtain ⟨k, w⟩ := e
    by_cases hk : k = pid
    · by_cases hq : q = pid
      · subst hq
        simp [removeKey, lookupSubs, hk, ih]
      · simp [removeKey, lookupSubs, hk, hq, Ne.symm hq, ih]
    · by_cases hq : k = q
      · have hqp : ¬ q = pid := fun hh => hk (hq.trans hh)
        simp [removeKey, lookupSubs, hk, hq, hqp]
      · simp [removeKey, lookupSubs, hk, hq, ih]

theorem fanOut_map_id (u : UpdateMsg) (chans : List Chan) (c : Option Nat) :
    ((fanOut u chans c).1).map Chan.id = chans.map Chan.id := by
  induction chans generalizing c with
  | nil => simp [fanOut]
  | cons ch rest ih =>
    by_cases h : c = some 0
    · simp [fanOut, h]
    · simp [fanOut, h, ih]

theorem lookupSubs_mem {α : Type} (regs : List (String × α)) (pid : String) (v : α)
    (h : lookupSubs regs pid = some v) : (pid, v) ∈ regs := by
  induction regs with
  | nil => simp [lookupSubs] at h
  | cons e rest ih =>
    obtain ⟨k, w⟩ := e
    by_cases hk : k = pid
    · subst hk
      simp [lookupSubs] at h
      simp [h]
    · simp [lookupSubs, hk] at h
      exact List.mem_cons_of_mem _ (ih h)

/-- When no node of the list answers `kafka.Dial`, the provisioning loop
falls through every iteration. -/
theorem provisionTopic_false (env : KafkaConnectEnv) (bs : List String)
    (h : ∀ node ∈ bs, env.dial node = false) : provisionTopic env bs = false := by
  induction bs with
  | nil => rfl
  | cons b rest ih =>
    have hb := h b (List.mem_cons_self _ _)
    simp [provisionTopic, tryProvisionNode, hb]
    exact ih fun n hn => h n (List.mem_cons_of_mem _ hn)

/-! ## Claim C1 -/

/-- Claim C1, as stated, is false on the code: with the Kafka backend
selected and every configured node unreachable (`kafka.Dial` fails for
each), the factory still returns `nil` error and a broker instance —
`NewKafkaBroker` has no error return at all; the failed provisioning is
only logged. -/
theorem c1_counterexample :
    (newMessageBroker envUnreachable "kafka" "b1:9092,b2:9092" "pfx").toOption =
      some (.kafka { topicCreated := false, brokers := ["b1:9092", "b2:9092"],
                     topicPref := "pfx", reg := newKafkaReg }) ∧
    (splitComma "b1:9092,b2:9092").all (fun n => envUnreachable.dial n = false) = true := by
  constructor
  · decide
  · decide

/-- Claim C1 (amended): when the durable (Kafka) backend is selected and no
configured node is reachable at construction time, `NewKafkaBroker` does
*not* fail: it returns `nil` error and a fully initialized broker whose
topic-provisioning flag is false — the provisioning failure is only logged
and retried lazily on publish. -/
theorem c1_amended (env : KafkaConnectEnv) (brokers : List String) (pref : String)
    (h : ∀ node ∈ brokers, env.dial node = false) :
    newKafkaBroker env brokers pref =
      .ok { topicCreated := false, brokers := brokers, topicPref := pref,
            reg := newKafkaReg } := by
  simp [newKafkaBroker, provisionTopic_false env brokers h]

/-- Witness for C1 (amended) at a concrete unreachable configuration. -/
theorem c1_witness :
    newKafkaBroker envUnreachable ["localhost:9092"] "issue-tracker" =
      .ok { topicCreated := false, brokers := ["localhost:9092"],
            topicPref := "issue-tracker", reg := newKafkaReg } :=
  c1_amended envUnreachable ["localhost:9092"] "issue-tracker" (by decide)

/-! ## Claim C4 -/

/-- Claim C4, as stated, is false on the code: in a world where the first
write fails with the topic-missing error, `CreateTopics` answers "already
exists", and a retried write would succeed (`writeMessage 1 = none`),
`PublishUpdate` nevertheless surfaces the error after a single write
attempt — `createTopicAndRetry` treats *every* `CreateTopics` error,
"already exists" included, as failure and never reaches the retry. -/
theorem c4_counterexample :
    kPublishUpdate envAlreadyExists = (some .unknownTopicOrPartition1, 1) ∧
    envAlreadyExists.createTopics0 = some .alreadyExists ∧
    envAlreadyExists.writeMessage 1 = none := by
  refine ⟨?_, rfl, rfl⟩
  decide

/-- Claim C4 (amended): on a topic-missing write failure the broker
attempts to provision the topic and retries the write exactly once — but
only when provisioning succeeds with no error; a provisioning result of
"already exists" is treated as failure, so any provisioning error (or
connection failure on the way) aborts without a retry and surfaces the
original write error.  After a successful provisioning, `Publish` returns
nil exactly when the single retried write succeeds, and otherwise surfaces
the error. -/
theorem c4_amended (env : KafkaPublishEnv) (e : KErr)
    (h0 : env.writeMessage 0 = some e) (hm : isTopicMissingErr e = true) :
    (env.dial0 = true → env.controllerOk0 = true → env.dialController0 = true →
      env.createTopics0 = none →
      kPublishUpdate env = ((env.writeMessage 1).map fun _ => e, 2)) ∧
    (env.createTopics0.isSome = true → kPublishUpdate env = (some e, 1)) ∧
    (env.dial0 = false → kPublishUpdate env = (some e, 1)) := by
  refine ⟨?_, ?_, ?_⟩
  · intro hd hc hdc hct
    simp only [kPublishUpdate, h0, handlePublishError, hm, if_true,
      createTopicAndRetry, hd, hc, hdc, hct]
    cases h1 : env.writeMessage 1 <;> simp [h1]
  · intro hct
    obtain ⟨e2, he2⟩ := Option.isSome_iff_exists.mp hct
    simp only [kPublishUpdate, h0, handlePublishError, hm, if_true,
      createTopicAndRetry, he2]
    by_cases hd : env.dial0 <;> by_cases hc : env.controllerOk0 <;>
      by_cases hdc : env.dialController0 <;> simp [hd, hc, hdc]
  · intro hd
    simp [kPublishUpdate, h0, handlePublishError, hm, createTopicAndRetry, hd]

/-- A world in which the topic-missing failure is rescued: provisioning
succeeds and the retried write goes through. -/
def envRetryOk : KafkaPublishEnv :=
  { writeMessage := fun n => if n = 0 then some .unknownTopicOrPartition2 else none
    dial0 := true
    controllerOk0 := true
    dialController0 := true
    createTopics0 := none }

/-- Witness for C4 (amended): one concrete rescued publish — two write
attempts, `nil` surfaced. -/
theorem c4_witness : kPublishUpdate envRetryOk = (none, 2) := by
  have h := (c4_amended envRetryOk .unknownTopicOrPartition2 rfl (by decide)).1
    rfl rfl rfl rfl
  simpa using h

/-! ## Claim C2 -/

/-- Claim C2 is the intended design but the code misses it (code bug): a
session that subscribes to "p1" and then exits — client EOF/receive error
(`recvDone`), context cancellation, or even a client send error — leaves
the session channel (id 0) registered for "p1" in the service registry.
The receive/cancel paths run no teardown at all, and the send-error path
calls `removeSubscriber` with the `subscribedProjectID` value captured when
the delivery loop started, which is `""`. -/
theorem c2_bug_eval :
    (streamSession 0 (fun _ => none) [⟨"p1", "subscribe"⟩] .recvDone).regs
        = [("p1", [0])] ∧
    (streamSession 0 (fun _ => none) [⟨"p1", "subscribe"⟩] .ctxCanceled).regs
        = [("p1", [0])] ∧
    (streamSession 0 (fun _ => none) [⟨"p1", "subscribe"⟩] .sendError).regs
        = [("p1", [0])] ∧
    countRefs (streamSession 0 (fun _ => none) [⟨"p1", "subscribe"⟩] .recvDone).regs 0
        = 1 := by
  refine ⟨?_, ?_, ?_, ?_⟩ <;> decide

/-! ## Claim C3 -/

/-- A broker with two subscribers (channels 0 and 1) on project "p1". -/
def memTwoSubs : MemBroker :=
  (memSubscribe (memSubscribe newInMemoryBroker "p1" 0).1 "p1" 1).1

/-- Claim C3, as stated, is false on the code: with channels 0 and 1 both
registered for "p1", `Unsubscribe("p1", ch0)` removes the *entire* entry —
channel 1 is no longer registered — and a subsequent publish to "p1"
delivers to nobody (the broker state is unchanged by it). -/
theorem c3_counterexample :
    lookupSubs memTwoSubs.subscribers "p1" = some [⟨0, []⟩, ⟨1, []⟩] ∧
    lookupSubs (memUnsubscribe memTwoSubs "p1" 0).subscribers "p1" = none ∧
    (memPublishUpdate (memUnsubscribe memTwoSubs "p1" 0) "p1" ⟨"p1", 1, "m"⟩ none).1
      = memUnsubscribe memTwoSubs "p1" 0 := by
  refine ⟨?_, ?_, ?_⟩ <;> decide

/-- Claim C3 (amended): `Unsubscribe(resourceID, channel)` removes *every*
delivery channel registered for the resourceID, not only the given one —
the in-memory backend deletes the whole map entry, the Kafka backend drains
the set and releases its reader — while registrations for every other
resourceID are untouched, and no channel is closed by `Unsubscribe` on
either backend. -/
theorem c3_amended (b : MemBroker) (k : KafkaReg) (pid : String) (chId : Nat) :
    lookupSubs (memUnsubscribe b pid chId).subscribers pid = none ∧
    (∀ q, q ≠ pid → lookupSubs (memUnsubscribe b pid chId).subscribers q
        = lookupSubs b.subscribers q) ∧
    (memUnsubscribe b pid chId).closedIds = b.closedIds ∧
    lookupSubs (kUnsubscribe k pid chId).subscribers pid = none ∧
    (∀ q, q ≠ pid → lookupSubs (kUnsubscribe k pid chId).subscribers q
        = lookupSubs k.subscribers q) ∧
    (kUnsubscribe k pid chId).closedIds = k.closedIds := by
  refine ⟨?_, ?_, rfl, ?_, ?_, ?_⟩
  · simp [memUnsubscribe, lookupSubs_removeKey]
  · intro q hq
    simp [memUnsubscribe, lookupSubs_removeKey, hq]
  · cases h : lookupSubs k.subscribers pid with
    | none => simp [kUnsubscribe, h]
    | some chans => simp [kUnsubscribe, h, lookupSubs_removeKey]
  · intro q hq
    cases h : lookupSubs k.subscribers pid with
    | none => simp [kUnsubscribe, h]
    | some chans => simp [kUnsubscribe, h, lookupSubs_removeKey, hq]
  · cases h : lookupSubs k.subscribers pid with
    | none => simp [kUnsubscribe, h]
    | some chans => simp [kUnsubscribe, h]

/-- Witness for C3 (amended) at concrete registries. -/
theorem c3_witness :
    lookupSubs (memUnsubscribe memTwoSubs "p1" 0).subscribers "other"
        = lookupSubs memTwoSubs.subscribers "other" ∧
    (memUnsubscribe memTwoSubs "p1" 0).closedIds = memTwoSubs.closedIds ∧
    lookupSubs (kUnsubscribe newKafkaReg "p1" 0).subscribers "p1" = none := by
  have h := c3_amended memTwoSubs newKafkaReg "p1" 0
  exact ⟨h.2.1 "other" (by decide), h.2.2.1, h.2.2.2.1⟩

/-! ## Claim C9 -/

/-- Claim C9 (confirmed): `PublishUpdate` on the in-process broker leaves
the subscriber registry unchanged — for every resourceID the registered
delivery channels (by identity) after the call equal those before, for
every cancellation behaviour of the caller's context (return `nil` or a
mid-loop `ctx.Err()` after delivering to only some subscribers); no channel
is closed by it either. -/
theorem c9_publish_frame (b : MemBroker) (pid : String) (u : UpdateMsg)
    (cancelAt : Option Nat) (q : String) :
    (lookupSubs (memPublishUpdate b pid u cancelAt).1.subscribers q).map
        (fun chans => chans.map Chan.id)
      = (lookupSubs b.subscribers q).map (fun chans => chans.map Chan.id) ∧
    (memPublishUpdate b pid u cancelAt).1.closedIds = b.closedIds := by
  cases h : lookupSubs b.subscribers pid with
  | none => simp [memPublishUpdate, h]
  | some chans =>
    constructor
    · by_cases hq : q = pid
      · subst hq
        simp [memPublishUpdate, h, lookupSubs_setSubs, fanOut_map_id]
      · simp [memPublishUpdate, h, lookupSubs_setSubs, hq]
    · simp [memPublishUpdate, h]

/-! ## Claim C10 -/

/-- One API call depends only on the registry component of the broker
state, both in its registry effect and in its observable result. -/
theorem memStep_congr (b c : MemBroker) (h : b.subscribers = c.subscribers)
    (op : MemOp) :
    (memStep b op).1.subscribers = (memStep c op).1.subscribers ∧
    (memStep b op).2 = (memStep c op).2 := by
  cases op with
  | subscribe pid ch => simp [memStep, memSubscribe, h]
  | publish pid u ca =>
    simp only [memStep, memPublishUpdate, h]
    cases lookupSubs c.subscribers pid <;> simp [h]
  | unsubscribe pid ch => simp [memStep, memUnsubscribe, h]

/-- A call sequence depends only on the registry component of the starting
broker state. -/
theorem memRun_congr (ops : List MemOp) :
    ∀ b c : MemBroker, b.subscribers = c.subscribers →
      (memRun b ops).1.subscribers = (memRun c ops).1.subscribers ∧
      (memRun b ops).2 = (memRun c ops).2 := by
  induction ops with
  | nil => exact fun b c h => ⟨h, rfl⟩
  | cons op ops ih =>
    intro b c h
    have hs := memStep_congr b c h op
    have hr := ih (memStep b op).1 (memStep c op).1 hs.1
    simp [memRun, hr.1, hr.2, hs.2]

/-- Claim C10 (confirmed): `Close` of the in-process broker is a reset, not
terminal — afterwards the subscriber registry is the empty map, and every
subsequent sequence of `Subscribe`/`PublishUpdate`/`Unsubscribe` calls
produces the same observable results and the same registry as the same
sequence applied to a freshly constructed broker. -/
theorem c10_close_resets (b : MemBroker) (ops : List MemOp) :
    (memClose b).subscribers = [] ∧
    (memRun (memClose b) ops).1.subscribers
        = (memRun newInMemoryBroker ops).1.subscribers ∧
    (memRun (memClose b) ops).2 = (memRun newInMemoryBroker ops).2 := by
  have h := memRun_congr ops (memClose b) newInMemoryBroker rfl
  exact ⟨rfl, h.1, h.2⟩

/-! ## Claim C5 -/

/-- The spec invariant: every resourceID present in a registry maps to a
non-empty subscriber set. -/
def noEmptyEntries {α : Type} (regs : List (String × List α)) : Prop :=
  ∀ e ∈ regs, e.2 ≠ []

theorem noEmptyEntries_setSubs {α : Type} (regs : List (String × List α))
    (pid : String) (v : List α) (h : noEmptyEntries regs) (hv : v ≠ []) :
    noEmptyEntries (setSubs regs pid v) := by
  induction regs with
  | nil =>
    intro e he
    simp [setSubs] at he
    simp [he, hv]
  | cons f rest ih =>
    obtain ⟨k, w⟩ := f
    have hrest : noEmptyEntries rest := fun e he => h e (List.mem_cons_of_mem _ he)
    by_cases hk : k = pid
    · intro e he
      simp [setSubs, hk] at he
      rcases he with he | he
      · simp [he, hv]
      · exact hrest e he
    · intro e he
      simp only [setSubs, if_neg hk, List.mem_cons] at he
      rcases he with he | he
      · exact he ▸ h (k, w) (List.mem_cons_self _ _)
      · exact ih hrest e he

theorem noEmptyEntries_removeKey {α : Type} (regs : List (String × List α))
    (pid : String) (h : noEmptyEntries regs) :
    noEmptyEntries (removeKey regs pid) := by
  induction regs with
  | nil => intro e he; simp [removeKey] at he
  | cons f rest ih =>
    obtain ⟨k, w⟩ := f
    have hrest : noEmptyEntries rest := fun e he => h e (List.mem_cons_of_mem _ he)
    by_cases hk : k = pid
    · simpa [removeKey, hk] using ih hrest
    · intro e he
      simp only [removeKey, if_neg hk, List.mem_cons] at he
      rcases he with he | he
      · exact he ▸ h (k, w) (List.mem_cons_self _ _)
      · exact ih hrest e he

theorem fanOut_ne_nil (u : UpdateMsg) (chans : List Chan) (c : Option Nat)
    (h : chans ≠ []) : (fanOut u chans c).1 ≠ [] := by
  intro hc
  have := fanOut_map_id u chans c
  rw [hc] at this
  exact h (List.map_eq_nil_iff.mp this.symm)

/-- A value found in a registry satisfying the invariant is non-empty. -/
theorem lookupSubs_ne_nil {α : Type} (regs : List (String × List α)) (pid : String)
    (v : List α) (h : noEmptyEntries regs) (hl : lookupSubs regs pid = some v) :
    v ≠ [] :=
  h (pid, v) (lookupSubs_mem regs pid v hl)

/-- Every in-process broker API call preserves the invariant. -/
theorem memStep_noEmpty (b : MemBroker) (op : MemOp)
    (h : noEmptyEntries b.subscribers) :
    noEmptyEntries (memStep b op).1.subscribers := by
  cases op with
  | subscribe pid ch =>
    simpa [memStep, memSubscribe] using
      noEmptyEntries_setSubs b.subscribers pid _ h (by simp)
  | publish pid u ca =>
    cases hl : lookupSubs b.subscribers pid with
    | none => simpa [memStep, memPublishUpdate, hl] using h
    | some chans =>
      simpa [memStep, memPublishUpdate, hl] using
        noEmptyEntries_setSubs b.subscribers pid _ h
          (fanOut_ne_nil u chans ca (lookupSubs_ne_nil b.subscribers pid chans h hl))
  | unsubscribe pid ch =>
    simpa [memStep, memUnsubscribe] using noEmptyEntries_removeKey b.subscribers pid h

/-- Every durable-broker registry operation other than the cancellation
removal preserves the invariant. -/
theorem kStep_noEmpty (k : KafkaReg) (op : KOp)
    (h : noEmptyEntries k.subscribers) :
    noEmptyEntries (kStep k op).subscribers := by
  cases op with
  | subscribe pid ch =>
    simpa [kStep, kSubscribe] using
      noEmptyEntries_setSubs k.subscribers pid _ h (by simp)
  | unsubscribe pid ch =>
    cases hl : lookupSubs k.subscribers pid with
    | none => simpa [kStep, kUnsubscribe, hl] using h
    | some chans =>
      simpa [kStep, kUnsubscribe, hl] using noEmptyEntries_removeKey k.subscribers pid h
  | distribute pid u =>
    cases hl : lookupSubs k.subscribers pid with
    | none => simpa [kStep, kDistributeUpdate, hl] using h
    | some chans =>
      have hne : chans ≠ [] := lookupSubs_ne_nil k.subscribers pid chans h hl
      simpa [kStep, kDistributeUpdate, hl] using
        noEmptyEntries_setSubs k.subscribers pid _ h (by simpa using hne)
  | close => simpa [kStep, kClose] using h

theorem memRun_noEmpty (ops : List MemOp) :
    ∀ b : MemBroker, noEmptyEntries b.subscribers →
      noEmptyEntries (memRun b ops).1.subscribers := by
  induction ops with
  | nil => exact fun b h => h
  | cons op ops ih =>
    intro b h
    simpa [memRun] using ih (memStep b op).1 (memStep_noEmpty b op h)

theorem kRun_noEmpty (ops : List KOp) :
    ∀ k : KafkaReg, noEmptyEntries k.subscribers →
      noEmptyEntries (kRun k ops).subscribers := by
  induction ops with
  | nil => exact fun k h => h
  | cons op ops ih =>
    intro k h
    simpa [kRun] using ih (kStep k op) (kStep_noEmpty k op h)

/-- Claim C5, as stated, is false on the code: the Kafka backend's
context-cancellation removal (the monitor goroutine spawned by `Subscribe`,
one of the claim's "subscriber-removal operations") deletes the channel
without running `cleanupIfNoSubscribers`, so subscribing channel 0 to "p1"
and then cancelling the subscriber's context reaches a registry in which
key "p1" is present with an *empty* subscriber set. -/
theorem c5_counterexample :
    lookupSubs (kCancelRemove (kSubscribe newKafkaReg "p1" 0).1 "p1" 0).subscribers "p1"
      = some [] := by decide

/-- Claim C5 (amended): the no-dangling-entries invariant — every
resourceID present in the registry has a non-empty subscriber set — holds
in every state of the in-memory backend reachable by
Subscribe/Publish/Unsubscribe, and in every state of the Kafka backend
reachable by Subscribe/Unsubscribe/fan-out/Close; only the Kafka
context-cancellation removal path can leave a resourceID with an empty
set. -/
theorem c5_amended (ops : List MemOp) (kops : List KOp) :
    noEmptyEntries (memRun newInMemoryBroker ops).1.subscribers ∧
    noEmptyEntries (kRun newKafkaReg kops).subscribers :=
  ⟨memRun_noEmpty ops newInMemoryBroker (by intro e he; simp [newInMemoryBroker] at he),
   kRun_noEmpty kops newKafkaReg (by intro e he; simp [newKafkaReg] at he)⟩

/-- Witness for C5 (amended) at a concrete reachable state. -/
theorem c5_witness : ([⟨0, []⟩] : List Chan) ≠ [] :=
  (c5_amended [.subscribe "p1" 0] []).1 ("p1", [⟨0, []⟩]) (by decide)

/-! ## Claim C6 -/

/-- Folding the non-blocking send over a message list fills the buffer with
the earliest messages, up to capacity, and drops the rest. -/
theorem sendNonBlocking_fold (us : List UpdateMsg) :
    ∀ buf : List UpdateMsg,
      us.foldl sendNonBlocking buf = buf ++ us.take (chanCap - buf.length) := by
  induction us with
  | nil => intro buf; simp
  | cons u rest ih =>
    intro buf
    by_cases hlen : buf.length < chanCap
    · rw [List.foldl_cons]
      have hs : sendNonBlocking buf u = buf ++ [u] := if_pos hlen
      rw [hs, ih]
      have h1 : (buf ++ [u]).length = buf.length + 1 := by simp
      have h2 : chanCap - buf.length = (chanCap - (buf.length + 1)) + 1 := by omega
      rw [h1, h2, List.take_succ_cons, List.append_assoc]
      rfl
    · rw [List.foldl_cons]
      have hs : sendNonBlocking buf u = buf := if_neg hlen
      have h2 : chanCap - buf.length = 0 := by omega
      rw [hs, ih, h2]
      simp

/-- Publishing a message list to a project with a single subscriber, with a
live context, succeeds on every call and drives that subscriber's buffer
through the non-blocking-send fold. -/
theorem memRun_publish_single (us : List UpdateMsg) (pid : String) (chId : Nat) :
    ∀ (buf : List UpdateMsg) (cl : List Nat),
      memRun ⟨[(pid, [⟨chId, buf⟩])], cl⟩ (us.map fun u => .publish pid u none)
        = (⟨[(pid, [⟨chId, us.foldl sendNonBlocking buf⟩])], cl⟩,
           us.map fun _ => .published .ok) := by
  induction us with
  | nil => intro buf cl; simp [memRun]
  | cons u rest ih =>
    intro buf cl
    have hf : fanOut u [(⟨chId, buf⟩ : Chan)] none
        = ([⟨chId, sendNonBlocking buf u⟩], false) := by
      simp [fanOut]
    simp only [List.map_cons, memRun, memStep, memPublishUpdate, lookupSubs,
      if_pos rfl, hf, setSubs, List.foldl_cons]
    simp [hf, ih (sendNonBlocking buf u) cl]

/-- Claim C6 (confirmed): with one subscriber on "p1" (buffer capacity 10)
and no draining reader, publishing any 15 messages leaves the subscriber's
buffer holding exactly the earliest 10 of them, in publish order, and every
one of the 15 `PublishUpdate` calls returns nil — a full buffer is never an
error for the publisher. -/
theorem c6_backpressure (us : List UpdateMsg) (h : us.length = 15) :
    (memRun (memSubscribe newInMemoryBroker "p1" 0).1
        (us.map fun u => .publish "p1" u none)).2
      = us.map (fun _ => .published .ok) ∧
    lookupSubs (memRun (memSubscribe newInMemoryBroker "p1" 0).1
        (us.map fun u => .publish "p1" u none)).1.subscribers "p1"
      = some [⟨0, us.take 10⟩] ∧
    (us.take 10).length = 10 := by
  have hinit : (memSubscribe newInMemoryBroker "p1" 0).1
      = ⟨[("p1", [⟨0, []⟩])], []⟩ := by decide
  have hrun := memRun_publish_single us "p1" 0 [] []
  rw [sendNonBlocking_fold us []] at hrun
  simp only [List.length_nil, Nat.sub_zero, List.nil_append, chanCap] at hrun
  rw [hinit, hrun]
  refine ⟨rfl, by simp [lookupSubs], ?_⟩
  simp [List.length_take, h]

/-- Fifteen concrete update messages. -/
def msgs15 : List UpdateMsg :=
  (List.range 15).map fun i => ⟨"p1", i, "m"⟩

/-- Witness for C6 at a concrete 15-message burst. -/
theorem c6_witness :
    lookupSubs (memRun (memSubscribe newInMemoryBroker "p1" 0).1
        (msgs15.map fun u => .publish "p1" u none)).1.subscribers "p1"
      = some [⟨0, msgs15.take 10⟩] :=
  (c6_backpressure msgs15 (by decide)).2.1

/-! ## Claim C7 -/

theorem subStep_inv (s : SubTrace) (st : SubStep)
    (h1 : List.Sublist (s.observed ++ s.buf) s.published)
    (h2 : s.drops = 0 → s.observed ++ s.buf = s.published) :
    List.Sublist ((subStep s st).observed ++ (subStep s st).buf)
      (subStep s st).published ∧
    ((subStep s st).drops = 0 →
      (subStep s st).observed ++ (subStep s st).buf = (subStep s st).published) := by
  cases st with
  | publish u =>
    by_cases hlen : s.buf.length < chanCap
    · constructor
      · simp only [subStep, sendNonBlocking, if_pos hlen]
        have hstep : List.Sublist ((s.observed ++ s.buf) ++ [u]) (s.published ++ [u]) :=
          h1.append (List.Sublist.refl [u])
        rw [List.append_assoc] at hstep
        exact hstep
      · intro hd
        simp only [subStep, if_pos hlen, Nat.add_zero] at hd
        simp only [subStep, sendNonBlocking, if_pos hlen, ← List.append_assoc,
          h2 hd]
    · constructor
      · simp only [subStep, sendNonBlocking, if_neg hlen]
        exact h1.trans (List.sublist_append_left s.published [u])
      · intro hd
        simp [subStep, if_neg hlen] at hd
  | take =>
    cases hb : s.buf with
    | nil => simpa [subStep, hb] using ⟨by simpa [hb] using h1, by simpa [hb] using h2⟩
    | cons u rest =>
      have heq : (s.observed ++ [u]) ++ rest = s.observed ++ s.buf := by
        rw [List.append_assoc, hb]; rfl
      constructor
      · simpa [subStep, hb, heq] using h1
      · intro hd
        simp only [subStep, hb] at hd ⊢
        rw [heq]
        exact h2 hd

theorem subFold_inv (steps : List SubStep) :
    ∀ s : SubTrace, List.Sublist (s.observed ++ s.buf) s.published →
      (s.drops = 0 → s.observed ++ s.buf = s.published) →
      List.Sublist
        ((steps.foldl subStep s).observed ++ (steps.foldl subStep s).buf)
        (steps.foldl subStep s).published ∧
      ((steps.foldl subStep s).drops = 0 →
        (steps.foldl subStep s).observed ++ (steps.foldl subStep s).buf
          = (steps.foldl subStep s).published) := by
  induction steps with
  | nil => exact fun s h1 h2 => ⟨h1, h2⟩
  | cons st rest ih =>
    intro s h1 h2
    have h := subStep_inv s st h1 h2
    simpa [List.foldl_cons] using ih (subStep s st) h.1 h.2

/-- Claim C7 (confirmed): through the shared non-blocking-send fan-out
(`sendNonBlocking`, used by both `memPublishUpdate` and
`kDistributeUpdate`), a single subscriber of a single resourceID observes
an order-preserving subsequence of the published sequence — and when its
buffer never fills (no drop ever occurs), what it observed followed by what
is still buffered is exactly the published sequence, in publish order. -/
theorem c7_order (steps : List SubStep) :
    List.Sublist (subRun steps).observed (subRun steps).published ∧
    List.Sublist ((subRun steps).observed ++ (subRun steps).buf)
      (subRun steps).published ∧
    ((subRun steps).drops = 0 →
      (subRun steps).observed ++ (subRun steps).buf = (subRun steps).published) := by
  have h := subFold_inv steps subInit (by simp [subInit]) (by simp [subInit])
  exact ⟨(List.sublist_append_left _ _).trans h.1, h.1, h.2⟩

/-- Three concrete steps with no drop. -/
def stepsC7 : List SubStep :=
  [.publish ⟨"p1", 1, "a"⟩, .take, .publish ⟨"p1", 2, "b"⟩]

/-- Witness for C7 at a concrete drop-free trace. -/
theorem c7_witness :
    (subRun stepsC7).observed ++ (subRun stepsC7).buf = (subRun stepsC7).published :=
  (c7_order stepsC7).2.2 (by decide)

/-! ## Claim C8 -/

/-- A session at stream start: no subscription, empty service registry,
the session channel (id 0) freshly made. -/
def coordInit : CoordState :=
  { subscribedProjectID := "", regs := [], chanBufs := [(0, [])] }

/-- Claim C8 (confirmed): after the control goroutine processes
`subscribe(a)` then `subscribe(b)` (`a` a real project ID, i.e. non-empty),
the session is subscribed to `b` and its channel is registered exactly once,
under `b`; the subscription to `a` was removed exactly once, and that
removal completed before the subscription to `b` was created; after the
first message, and in the intermediate teardown state, the session holds at
most one registration. -/
theorem c8_resubscribe (a b : String) (ha : a ≠ "") :
    (recvLoop 0 (fun _ => none) coordInit
        [⟨a, "subscribe"⟩, ⟨b, "subscribe"⟩]).1.subscribedProjectID = b ∧
    lookupSubs (recvLoop 0 (fun _ => none) coordInit
        [⟨a, "subscribe"⟩, ⟨b, "subscribe"⟩]).1.regs b = some [0] ∧
    countRefs (recvLoop 0 (fun _ => none) coordInit
        [⟨a, "subscribe"⟩, ⟨b, "subscribe"⟩]).1.regs 0 = 1 ∧
    (recvLoop 0 (fun _ => none) coordInit
        [⟨a, "subscribe"⟩, ⟨b, "subscribe"⟩]).2 = 1 ∧
    countRefs ((recvStep 0 (fun _ => none) coordInit ⟨a, "subscribe"⟩).1).regs 0 = 1 ∧
    countRefs ((removeSubscriber
        (recvStep 0 (fun _ => none) coordInit ⟨a, "subscribe"⟩).1 a 0).1).regs 0 = 0 := by
  have hs1 : recvStep 0 (fun _ => none) coordInit ⟨a, "subscribe"⟩
      = ({ subscribedProjectID := a, regs := [(a, [0])], chanBufs := [(0, [])] }, 0) := by
    simp [recvStep, coordInit, addSubscriber, lookupSubs, setSubs]
  by_cases hba : b = a
  · subst hba
    have hrm : removeSubscriber
        { subscribedProjectID := b, regs := [(b, [0])], chanBufs := [(0, [])] } b 0
        = ({ subscribedProjectID := b, regs := [(b, [])], chanBufs := [(0, [])] },
           true) := by
      simp [removeSubscriber, lookupSubs, setSubs, removeFirstRef]
    have hs2 : recvStep 0 (fun _ => none)
        { subscribedProjectID := b, regs := [(b, [0])], chanBufs := [(0, [])] }
        ⟨b, "subscribe"⟩
        = ({ subscribedProjectID := b, regs := [(b, [0])], chanBufs := [(0, [])] },
           1) := by
      simp [recvStep, hrm, addSubscriber, lookupSubs, setSubs, ha]
    refine ⟨?_, ?_, ?_, ?_, ?_, ?_⟩ <;>
      simp [recvLoop, hs1, hs2, hrm, lookupSubs, countRefs]
  · have hrm : removeSubscriber
        { subscribedProjectID := a, regs := [(a, [0])], chanBufs := [(0, [])] } a 0
        = ({ subscribedProjectID := a, regs := [(a, [])], chanBufs := [(0, [])] },
           true) := by
      simp [removeSubscriber, lookupSubs, setSubs, removeFirstRef]
    have hs2 : recvStep 0 (fun _ => none)
        { subscribedProjectID := a, regs := [(a, [0])], chanBufs := [(0, [])] }
        ⟨b, "subscribe"⟩
        = ({ subscribedProjectID := b, regs := [(a, []), (b, [0])],
             chanBufs := [(0, [])] }, 1) := by
      simp [recvStep, hrm, addSubscriber, lookupSubs, setSubs, ha, hba, Ne.symm hba]
    refine ⟨?_, ?_, ?_, ?_, ?_, ?_⟩ <;>
      simp [recvLoop, hs1, hs2, hrm, lookupSubs, countRefs, hba, Ne.symm hba]

/-- Witness for C8 at concrete project IDs. -/
theorem c8_witness :
    (recvLoop 0 (fun _ => none) coordInit
        [⟨"pa", "subscribe"⟩, ⟨"pb", "subscribe"⟩]).1.subscribedProjectID = "pb" ∧
    countRefs (recvLoop 0 (fun _ => none) coordInit
        [⟨"pa", "subscribe"⟩, ⟨"pb", "subscribe"⟩]).1.regs 0 = 1 ∧
    (recvLoop 0 (fun _ => none) coordInit
        [⟨"pa", "subscribe"⟩, ⟨"pb", "subscribe"⟩]).2 = 1 :=
  ⟨(c8_resubscribe "pa" "pb" (by decide)).1,
   (c8_resubscribe "pa" "pb" (by decide)).2.2.1,
   (c8_resubscribe "pa" "pb" (by decide)).2.2.2.1⟩

end IssueTracker
